import Mathlib

/-!
Verification of the multi-cam-sync camera subprocess.

Shallow embedding of the Python sources (camera_types.py, camera_manager.py,
ipc_handler.py).  Hardware effects of the pypylon gateway (device open,
register writes, frame retrieval, image save, directory creation) are
external; each embedded operation takes the outcome of its gateway calls as
explicit parameters (an oracle), and the embedding records exactly the state
updates and output lines the Python code performs for that outcome.
Python floats (exposure, gamma, timestamps) are carried as rationals: the
code never computes with them, it only stores and forwards them.
-/

/-- camera_types.TriggerMode. -/
inductive TriggerMode
  | software
  | hardware
deriving DecidableEq, Repr

/-- camera_types.TriggerActivation. -/
inductive TriggerActivation
  | risingEdge
  | fallingEdge
  | levelHigh
  | levelLow
deriving DecidableEq, Repr

/-- The .value string of a TriggerActivation enum member. -/
def TriggerActivation.value : TriggerActivation → String
  | .risingEdge => "RisingEdge"
  | .fallingEdge => "FallingEdge"
  | .levelHigh => "LevelHigh"
  | .levelLow => "LevelLow"

/-- camera_types.CameraSettings (dataclass). -/
structure CameraSettings where
  exposure_time : ℚ
  gain : ℤ
  gamma : ℚ
  trigger_mode : TriggerMode
  trigger_source : String
  trigger_activation : TriggerActivation
  camera_ip : Option String
  camera_id : Option String
  camera_name : Option String
deriving DecidableEq, Repr

/-- The dataclass field defaults of CameraSettings. -/
def defaultSettings : CameraSettings :=
  ⟨8000, 0, 1, TriggerMode.hardware, "Line1", TriggerActivation.risingEdge,
   none, none, none⟩

/-- camera_types.CameraInfo (dataclass). -/
structure CameraInfo where
  ip_address : String
  model_name : String
  serial_number : String
  mac_address : String
  user_defined_name : String
  friendly_name : String
  is_mock : Bool
deriving DecidableEq, Repr

/-- CameraInfo.__post_init__: compute the friendly name when none was given.
Python truthiness of a string is non-emptiness. -/
def cameraInfoPostInit (c : CameraInfo) : CameraInfo :=
  if c.friendly_name = "" then
    if c.user_defined_name = "" then
      { c with friendly_name := c.model_name ++ " (" ++ c.ip_address ++ ")" }
    else
      { c with friendly_name :=
          c.user_defined_name ++ " - " ++ c.model_name ++ " (" ++ c.ip_address ++ ")" }
  else c

/-- Constructing a CameraInfo the way enumeration does: the friendly_name
field is left at its dataclass default (the empty string), so
__post_init__ computes it. -/
def mkCameraInfo (ip model serial mac user : String) (mock : Bool) : CameraInfo :=
  cameraInfoPostInit ⟨ip, model, serial, mac, user, "", mock⟩

/-- camera_types.CameraStatus (dataclass). -/
structure CameraStatus where
  camera_id : String
  connected : Bool
  capturing : Bool
  frame_count : ℕ
  trigger_mode : TriggerMode
  last_error : Option String
deriving DecidableEq, Repr

/-- camera_types.CaptureResult (dataclass). -/
structure CaptureResult where
  camera_id : String
  success : Bool
  frame_count : ℕ
  output_dir : String
  start_time : String
  end_time : String
  duration_seconds : ℚ
  error : Option String
deriving DecidableEq, Repr

/-- camera_types.FrameInfo (dataclass). -/
structure FrameInfo where
  camera_id : String
  frame_number : ℕ
  file_path : String
  timestamp : ℚ
  width : ℕ
  height : ℕ
deriving DecidableEq, Repr

/-- The hardware registers written through the pylon camera object.  Each is
None until some code path writes it. -/
structure HwRegisters where
  exposure : Option ℚ
  gain_auto : Option String
  gain : Option ℤ
  gamma_enable : Option Bool
  gamma_selector : Option String
  gamma : Option ℚ
  trig_selector : Option String
  trig_mode : Option String
  trig_source : Option String
  trig_activation : Option String
deriving DecidableEq, Repr

/-- All-unset hardware registers. -/
def hwInit : HwRegisters :=
  ⟨none, none, none, none, none, none, none, none, none, none⟩

/-- One line written to stdout, distinguished by its prefix token, plus the
frame-callback channel (the only callback the program installs forwards each
FrameInfo as a FRAME_SAVED line). -/
inductive DataPayload
  | pong
  | version (v : String)
  | cameras (cs : List CameraInfo) (count : ℕ)
  | initResp (camera_id : String)
  | connectResp (success : Bool)
  | disconnectResp
  | configureResp
  | startResp (success : Bool)
  | stopResp (success : Bool) (frame_count : ℕ) (output_dir : String) (error : Option String)
  | statusUninit
  | statusResp (camera_id : String) (connected capturing : Bool)
      (frame_count : ℕ) (trigger_mode : TriggerMode)
deriving DecidableEq, Repr

/-- Output messages: STATUS, ERROR, WARNING prints, DATA, PREVIEW and
FRAME_SAVED protocol lines. -/
inductive Msg
  | status (s : String)
  | error (s : String)
  | warning (s : String)
  | data (d : DataPayload)
  | preview (s : String)
  | frameSaved (f : FrameInfo)
deriving DecidableEq, Repr

/-- The mutable state of camera_manager.CameraManager.  The pylon camera
object itself is opaque; we track whether self.camera is set, the register
values written through it, and whether it is grabbing. -/
structure CameraManager where
  camera_id : String
  settings : CameraSettings
  camera : Bool
  is_open : Bool
  is_capturing : Bool
  frame_count : ℕ
  capture_thread : Bool
  capture_active : Bool
  output_dir : Option String
  frame_callback : Bool
  hw : HwRegisters
  grabbing : Bool
deriving DecidableEq, Repr

/-- CameraManager.__init__ (settings or CameraSettings()). -/
def mkCameraManager (cid : String) (s : Option CameraSettings) : CameraManager :=
  ⟨cid, s.getD defaultSettings, false, false, false, 0, false, false, none, false,
   hwInit, false⟩

/-- Zero-pad formatting f-string {n:06d}: the decimal representation padded
with leading zeros to a minimum width of six. -/
def pad6 (n : ℕ) : String :=
  let s := Nat.repr n
  String.mk (List.replicate (6 - s.length) '0') ++ s

/-- CameraManager._configure_camera.  The six register writes run in order
inside a try block; the oracle k is the number of writes that succeed before
an exception (k is at least 6 when the whole block runs, printing the
configured status; k below 6 models an exception after k writes, printing a
warning). -/
def configure_camera (m : CameraManager) (k : ℕ) : CameraManager × List Msg :=
  if ¬ m.camera then (m, []) else
  let hw1 := if 1 ≤ k then { m.hw with exposure := some m.settings.exposure_time } else m.hw
  let hw2 := if 2 ≤ k then { hw1 with gain_auto := some "Off" } else hw1
  let hw3 := if 3 ≤ k then { hw2 with gain := some m.settings.gain } else hw2
  let hw4 := if 4 ≤ k then { hw3 with gamma_enable := some true } else hw3
  let hw5 := if 5 ≤ k then { hw4 with gamma_selector := some "User" } else hw4
  let hw6 := if 6 ≤ k then { hw5 with gamma := some m.settings.gamma } else hw5
  let m1 := { m with hw := hw6 }
  if 6 ≤ k then (m1, [Msg.status ("Camera " ++ m.camera_id ++ " configured")])
  else (m1, [Msg.warning "Some settings not supported"])

/-- CameraManager.configure_hardware_trigger.  Four register writes then the
settings.trigger_mode assignment run in a try block; oracle k counts the
statements that succeed (k at least 5 means no exception). -/
def configure_hardware_trigger (m : CameraManager) (k : ℕ) : CameraManager × List Msg :=
  if ¬ (m.camera ∧ m.is_open) then (m, [Msg.error "Camera not connected"]) else
  let hw1 := if 1 ≤ k then { m.hw with trig_selector := some "FrameStart" } else m.hw
  let hw2 := if 2 ≤ k then { hw1 with trig_mode := some "On" } else hw1
  let hw3 := if 3 ≤ k then { hw2 with trig_source := some m.settings.trigger_source } else hw2
  let hw4 := if 4 ≤ k then
      { hw3 with trig_activation := some m.settings.trigger_activation.value } else hw3
  let m1 := { m with hw := hw4 }
  if 5 ≤ k then
    ({ m1 with settings := { m1.settings with trigger_mode := TriggerMode.hardware } },
     [Msg.status ("Camera " ++ m.camera_id ++ " hardware trigger configured")])
  else (m1, [Msg.error "Failed to configure hardware trigger"])

/-- Python "a or b" on optional strings: the empty string is falsy. -/
def pyOrStr (a b : Option String) : Option String :=
  match a with
  | some s => if s = "" then b else some s
  | none => b

/-- CameraManager.connect.  Oracles: whether pypylon imported, whether device
creation and Open succeed (a failure raises before self.camera is assigned in
the modelled path), and the _configure_camera write count. -/
def connect (m : CameraManager) (pylonAvail : Bool) (ip_address : Option String)
    (openOk : Bool) (cfgK : ℕ) : CameraManager × List Msg × Bool :=
  if ¬ pylonAvail then (m, [Msg.error "PyPylon not available"], false)
  else
    match pyOrStr ip_address m.settings.camera_ip with
    | none => (m, [Msg.error "No camera IP address specified"], false)
    | some ip =>
      if ip = "" then (m, [Msg.error "No camera IP address specified"], false)
      else if ¬ openOk then
        (m, [Msg.error ("Failed to connect camera " ++ m.camera_id)], false)
      else
        let m1 := { m with camera := true }
        let (m2, cfgMsgs) := configure_camera m1 cfgK
        let m3 := { m2 with is_open := true,
                            settings := { m2.settings with camera_ip := some ip } }
        (m3, cfgMsgs ++ [Msg.status ("Camera " ++ m.camera_id ++ " connected to " ++ ip)],
         true)

/-- CameraManager.get_status. -/
def get_status (m : CameraManager) : CameraStatus :=
  ⟨m.camera_id, m.is_open, m.is_capturing, m.frame_count, m.settings.trigger_mode, none⟩

/-- One field update request passed to update_settings as a keyword argument.
A key that is not an attribute of CameraSettings fails the hasattr test. -/
inductive SettingsUpdate
  | exposure_time (v : ℚ)
  | gain (v : ℤ)
  | gamma (v : ℚ)
  | trigger_mode (v : TriggerMode)
  | trigger_source (v : String)
  | trigger_activation (v : TriggerActivation)
  | camera_ip (v : Option String)
  | camera_id (v : Option String)
  | camera_name (v : Option String)
  | unknown (key : String)
deriving DecidableEq, Repr

/-- The setattr performed for one keyword argument of update_settings; a key
failing hasattr is skipped. -/
def applyUpdate (s : CameraSettings) : SettingsUpdate → CameraSettings
  | .exposure_time v => { s with exposure_time := v }
  | .gain v => { s with gain := v }
  | .gamma v => { s with gamma := v }
  | .trigger_mode v => { s with trigger_mode := v }
  | .trigger_source v => { s with trigger_source := v }
  | .trigger_activation v => { s with trigger_activation := v }
  | .camera_ip v => { s with camera_ip := v }
  | .camera_id v => { s with camera_id := v }
  | .camera_name v => { s with camera_name := v }
  | .unknown _ => s

/-- CameraManager.update_settings: apply every recognised keyword argument to
the stored settings, then re-run _configure_camera only if connected and not
capturing. -/
def update_settings (m : CameraManager) (kwargs : List SettingsUpdate) (cfgK : ℕ) :
    CameraManager × List Msg :=
  let m1 := { m with settings := kwargs.foldl applyUpdate m.settings }
  if m1.is_open ∧ ¬ m1.is_capturing then configure_camera m1 cfgK else (m1, [])

/-- What one RetrieveResult call inside _capture_loop returned, together with
the fate of the statements the loop body then runs on it.  The loop body is
one big try block, so an exception anywhere in it is caught per iteration. -/
inductive LoopEvent
  | delivered (ts : ℚ) (w h : ℕ)
  | deliveredSaveFail (err : String)
  | failedResult
  | timeout
  | retrieveError (err : String)
deriving DecidableEq, Repr

/-- Result of one iteration of the _capture_loop body: the new manager state,
the lines and callback notifications emitted, the image files written, and
whether a grab result object was retrieved and whether Release was called on
it. -/
structure LoopStep where
  state : CameraManager
  msgs : List Msg
  saved : List String
  retrieved : Bool
  released : Bool
deriving DecidableEq, Repr

/-- One iteration of the _capture_loop body (camera_manager.py lines 347-378),
given what RetrieveResult produced.
delivered: the result is truthy, GrabSucceeded, and the save and callback
  complete; the counter is incremented, the file written, the FrameInfo
  passed to the callback, and the result released.
deliveredSaveFail: GrabSucceeded, the counter is incremented (line 354), but
  Image.fromarray or img.save raises; the except clause prints a capture
  error and Release is never reached.
failedResult: the result is truthy but GrabSucceeded is false: the body
  skips the whole if block, so the result is not released.
timeout: RetrieveResult returned a falsy result (nothing retrieved).
retrieveError: RetrieveResult raised; a capture error is printed when the
  active flag is still set. -/
def capture_loop_step (m : CameraManager) : LoopEvent → LoopStep
  | .delivered ts w h =>
    let n := m.frame_count + 1
    let path := m.output_dir.getD "" ++ "/" ++ pad6 n ++ ".png"
    let msgs := if m.frame_callback then
        [Msg.frameSaved ⟨m.camera_id, n, path, ts, w, h⟩] else []
    ⟨{ m with frame_count := n }, msgs, [path], true, true⟩
  | .deliveredSaveFail err =>
    let msgs := if m.capture_active then
        [Msg.error ("Capture error on " ++ m.camera_id ++ ": " ++ err)] else []
    ⟨{ m with frame_count := m.frame_count + 1 }, msgs, [], true, false⟩
  | .failedResult => ⟨m, [], [], true, false⟩
  | .timeout => ⟨m, [], [], false, false⟩
  | .retrieveError err =>
    let msgs := if m.capture_active then
        [Msg.error ("Capture error on " ++ m.camera_id ++ ": " ++ err)] else []
    ⟨m, msgs, [], false, false⟩

/-- Aggregate result of running the _capture_loop while loop over a sequence
of RetrieveResult outcomes. -/
structure LoopRun where
  state : CameraManager
  msgs : List Msg
  saved : List String
deriving DecidableEq, Repr

/-- The _capture_loop while loop: each iteration first tests the
_capture_active event; once it is clear the loop exits and prints the ended
status.  The event list is the trace of RetrieveResult outcomes offered by
the hardware while the thread runs. -/
def capture_loop (m : CameraManager) : List LoopEvent → LoopRun
  | [] => ⟨m, [], []⟩
  | e :: es =>
    if m.capture_active then
      let s := capture_loop_step m e
      let r := capture_loop s.state es
      ⟨r.state, s.msgs ++ r.msgs, s.saved ++ r.saved⟩
    else
      ⟨m, [Msg.status ("Camera " ++ m.camera_id ++ " capture loop ended")], []⟩

/-- Result of CameraManager.start_capture: new state, printed lines, the
returned boolean, and an uncaught exception (mkdir is the one statement that
can raise out of this method in the modelled paths). -/
structure StartResult where
  state : CameraManager
  msgs : List Msg
  ok : Bool
  exn : Option String
deriving DecidableEq, Repr

/-- CameraManager.start_capture.  Checks connection and the capturing flag
first; then assigns _output_dir, creates the directory (mkdirErr is the
raised OSError if any: it propagates to the caller after _output_dir was
already assigned), stores the callback, resets frame_count to 0, configures
the hardware trigger (its failure is printed but does not abort), starts
grabbing, sets the active event, spawns the thread and sets is_capturing. -/
def start_capture (m : CameraManager) (outputDir : String) (hasCallback : Bool)
    (mkdirErr : Option String) (trigK : ℕ) : StartResult :=
  if ¬ (m.is_open ∧ m.camera) then ⟨m, [Msg.error "Camera not connected"], false, none⟩
  else if m.is_capturing then ⟨m, [Msg.error "Already capturing"], false, none⟩
  else
    let m1 := { m with output_dir := some outputDir }
    match mkdirErr with
    | some e => ⟨m1, [], false, some e⟩
    | none =>
      let m2 := { m1 with frame_callback := hasCallback, frame_count := 0 }
      let (m3, cfgMsgs) := configure_hardware_trigger m2 trigK
      let m4 := { m3 with grabbing := true, capture_active := true,
                          capture_thread := true, is_capturing := true }
      ⟨m4, cfgMsgs ++ [Msg.status ("Camera " ++ m.camera_id ++ " capture started")],
       true, none⟩

/-- Result of CameraManager.stop_capture. -/
structure StopRun where
  state : CameraManager
  result : CaptureResult
  msgs : List Msg
deriving DecidableEq, Repr

/-- CameraManager.stop_capture.  Not capturing: return the failure result
without touching any state.  Otherwise clear the active event, join and drop
the thread, stop grabbing if needed, clear is_capturing, and build the
success result from the final counter and output directory. -/
def stop_capture (m : CameraManager) : StopRun :=
  if ¬ m.is_capturing then
    ⟨m, ⟨m.camera_id, false, 0, "", "", "", 0, some "Not capturing"⟩, []⟩
  else
    let m1 := { m with capture_active := false, capture_thread := false }
    let m2 := if m1.camera ∧ m1.grabbing then { m1 with grabbing := false } else m1
    let m3 := { m2 with is_capturing := false }
    ⟨m3, ⟨m.camera_id, true, m.frame_count, m.output_dir.getD "", "", "", 0, none⟩,
     [Msg.status ("Camera " ++ m.camera_id ++ " capture stopped, frames: " ++
       Nat.repr m.frame_count)]⟩

/-- What the single-frame grab in CameraManager.grab_frame encountered. -/
inductive GrabOneOutcome
  | succeeded
  | failed
  | retrieveError (err : String)
deriving DecidableEq, Repr

/-- Result of CameraManager.grab_frame: whether an image array was returned,
the printed lines, and whether a grab result was retrieved / released. -/
structure GrabOneRun where
  img : Bool
  msgs : List Msg
  retrieved : Bool
  released : Bool
deriving DecidableEq, Repr

/-- CameraManager.grab_frame.  succeeded: the result is released after the
array copy and the image returned.  failed: GrabSucceeded was false, the
result is still released and an error printed.  retrieveError: RetrieveResult
(or StartGrabbingMax) raised, so no result was retrieved.  The finally clause
stops grabbing on every path; its net effect on the state is nil. -/
def grab_frame (m : CameraManager) (o : GrabOneOutcome) : GrabOneRun :=
  if ¬ (m.is_open ∧ m.camera) then ⟨false, [Msg.error "Camera not connected"], false, false⟩
  else
    match o with
    | .succeeded => ⟨true, [], true, true⟩
    | .failed => ⟨false, [Msg.error "Frame grab failed"], true, true⟩
    | .retrieveError e => ⟨false, [Msg.error ("Frame grab error: " ++ e)], false, false⟩

/-- CameraManager.grab_frame_base64.  b64 is the base64 text the external
encoder produces; encodeOk false models an exception inside the encoding try
block. -/
def grab_frame_base64 (m : CameraManager) (o : GrabOneOutcome) (fmt : String)
    (quality : ℕ) (b64 : String) (encodeOk : Bool) : Option String × List Msg :=
  let g := grab_frame m o
  let _ := quality
  if ¬ g.img then (none, g.msgs)
  else if ¬ encodeOk then (none, g.msgs ++ [Msg.error "Image encoding error"])
  else
    let mime := if fmt.toLower = "jpeg" then "image/jpeg" else "image/png"
    (some ("data:" ++ mime ++ ";base64," ++ b64), g.msgs)

/-- CameraManager.disconnect.  Stops any active capture first, then closes
the handle; a Close exception is printed, and the finally clause clears
is_open and prints the disconnected status.  Close never clears self.camera. -/
def disconnect (m : CameraManager) (closeOk : Bool) : CameraManager × List Msg :=
  let p := if m.is_capturing then
      let r := stop_capture m
      (r.state, r.msgs)
    else (m, [])
  let m1 := p.1
  if m1.camera ∧ m1.is_open then
    let m2 := if m1.grabbing then { m1 with grabbing := false } else m1
    let errMsgs := if closeOk then [] else
      [Msg.error ("Error closing camera " ++ m.camera_id)]
    ({ m2 with is_open := false },
     p.2 ++ errMsgs ++ [Msg.status ("Camera " ++ m.camera_id ++ " disconnected")])
  else (m1, p.2)

/-- CameraManager.detect_cameras.  Without pypylon: print the status and
return only the mock entry.  With pypylon the enumeration itself is external;
found is the list of CameraInfo values built from the GigE devices it
reported. -/
def detect_cameras (pylonAvail : Bool) (found : List CameraInfo) :
    List CameraInfo × List Msg :=
  if ¬ pylonAvail then
    ([mkCameraInfo "mock" "Mock Camera" "MOCK-001" "" "" true],
     [Msg.status "PyPylon not available, returning mock camera only"])
  else (found, [])

/-- The state of ipc_handler.IPCHandler. -/
structure IPCHandler where
  camera : Option CameraManager
  camera_id : Option String
deriving DecidableEq, Repr

/-- One decoded command dict, with the gateway outcomes its handler will see
baked in as oracle fields.  Option fields are JSON keys that may be absent. -/
inductive Command
  | ping
  | version
  | detect_cameras (pylonAvail : Bool) (found : List CameraInfo)
  | init (camera_id : Option String) (camera_ip : Option String)
  | connect (camera_ip : Option String) (pylonAvail openOk : Bool) (cfgK : ℕ)
  | disconnect (closeOk : Bool)
  | configure (settings : List SettingsUpdate) (cfgK : ℕ)
  | get_preview (fmt : Option String) (quality : Option ℕ) (o : GrabOneOutcome)
      (b64 : String) (encodeOk : Bool)
  | start_capture (output_dir : Option String) (mkdirErr : Option String) (trigK : ℕ)
  | stop_capture
  | status
  | unknown (name : String)
deriving DecidableEq, Repr

/-- Result of one handler body: the new dispatcher state, the lines it
printed, and an exception it let escape to the dispatch try block. -/
structure HandlerResult where
  state : IPCHandler
  msgs : List Msg
  exn : Option String
deriving DecidableEq, Repr

/-- The body of IPCHandler.handle_command before its except clause: route the
command to its handler (ipc_handler.py lines 73-107) and run it. -/
def route (h : IPCHandler) : Command → HandlerResult
  | .ping => ⟨h, [Msg.data DataPayload.pong], none⟩
  | .version => ⟨h, [Msg.data (DataPayload.version "1.0.0")], none⟩
  | .detect_cameras avail found =>
    let p := detect_cameras avail found
    ⟨h, p.2 ++ [Msg.data (DataPayload.cameras p.1 p.1.length)], none⟩
  | .init cid cip =>
    let camera_id := cid.getD "cam1"
    let s := { defaultSettings with camera_ip := cip, camera_id := some camera_id }
    ⟨⟨some (mkCameraManager camera_id (some s)), some camera_id⟩,
     [Msg.data (DataPayload.initResp camera_id)], none⟩
  | .connect cip avail openOk k =>
    match h.camera with
    | none => ⟨h, [Msg.error "Camera not initialized. Call init first."], none⟩
    | some m =>
      let ip := match cip with
        | some s => some s
        | none => m.settings.camera_ip
      let r := connect m avail ip openOk k
      ⟨⟨some r.1, h.camera_id⟩, r.2.1 ++ [Msg.data (DataPayload.connectResp r.2.2)], none⟩
  | .disconnect closeOk =>
    match h.camera with
    | none => ⟨h, [Msg.data DataPayload.disconnectResp], none⟩
    | some m =>
      let p := disconnect m closeOk
      ⟨⟨some p.1, h.camera_id⟩, p.2 ++ [Msg.data DataPayload.disconnectResp], none⟩
  | .configure ks k =>
    match h.camera with
    | none => ⟨h, [Msg.error "Camera not initialized"], none⟩
    | some m =>
      let p := update_settings m ks k
      ⟨⟨some p.1, h.camera_id⟩, p.2 ++ [Msg.data DataPayload.configureResp], none⟩
  | .get_preview fmt q o b64 encOk =>
    match h.camera with
    | none => ⟨h, [Msg.error "Camera not connected"], none⟩
    | some m =>
      if ¬ m.is_open then ⟨h, [Msg.error "Camera not connected"], none⟩
      else
        let p := grab_frame_base64 m o (fmt.getD "jpeg") (q.getD 85) b64 encOk
        match p.1 with
        | some u => ⟨h, p.2 ++ [Msg.preview u], none⟩
        | none => ⟨h, p.2 ++ [Msg.error "Failed to grab preview frame"], none⟩
  | .start_capture od mkdirErr trigK =>
    match h.camera with
    | none => ⟨h, [Msg.error "Camera not connected"], none⟩
    | some m =>
      if ¬ m.is_open then ⟨h, [Msg.error "Camera not connected"], none⟩
      else
        match od with
        | none => ⟨h, [Msg.error "output_dir is required"], none⟩
        | some d =>
          if d = "" then ⟨h, [Msg.error "output_dir is required"], none⟩
          else
            let r := start_capture m d true mkdirErr trigK
            match r.exn with
            | some e => ⟨⟨some r.state, h.camera_id⟩, r.msgs, some e⟩
            | none =>
              ⟨⟨some r.state, h.camera_id⟩,
               r.msgs ++ [Msg.data (DataPayload.startResp r.ok)], none⟩
  | .stop_capture =>
    match h.camera with
    | none => ⟨h, [Msg.error "Camera not initialized"], none⟩
    | some m =>
      let r := stop_capture m
      ⟨⟨some r.state, h.camera_id⟩,
       r.msgs ++ [Msg.data (DataPayload.stopResp r.result.success r.result.frame_count
         r.result.output_dir r.result.error)], none⟩
  | .status =>
    match h.camera with
    | none => ⟨h, [Msg.data DataPayload.statusUninit], none⟩
    | some m =>
      let st := get_status m
      ⟨h, [Msg.data (DataPayload.statusResp st.camera_id st.connected st.capturing
        st.frame_count st.trigger_mode)], none⟩
  | .unknown name => ⟨h, [Msg.error ("Unknown command: " ++ name)], none⟩

/-- IPCHandler.handle_command: the routed handler wrapped in the except
clause that turns an escaped exception into one ERROR line. -/
def handle_command (h : IPCHandler) (c : Command) : IPCHandler × List Msg :=
  let r := route h c
  match r.exn with
  | none => (r.state, r.msgs)
  | some e => (r.state, r.msgs ++ [Msg.error ("Command error: " ++ e)])

/-- One stdin line as run_ipc_loop sees it: blank (skipped), text that
json.loads rejects (the decode error message is the oracle), JSON that is
not an object (so cmd.get raises before the dispatch try block and the outer
except prints a command error), or a decoded command. -/
inductive InputLine
  | blank
  | invalid (err : String)
  | nonDict (err : String)
  | cmd (c : Command)
deriving DecidableEq, Repr

/-- Processing of one line inside the for loop of run_ipc_loop. -/
def processLine (h : IPCHandler) : InputLine → IPCHandler × List Msg
  | .blank => (h, [])
  | .invalid e => (h, [Msg.error ("Invalid JSON: " ++ e)])
  | .nonDict e => (h, [Msg.error ("Command error: " ++ e)])
  | .cmd c => handle_command h c

/-- The for loop of run_ipc_loop over a finite stdin trace. -/
def processLines (h : IPCHandler) : List InputLine → IPCHandler × List Msg
  | [] => (h, [])
  | l :: ls =>
    let p := processLine h l
    let q := processLines p.1 ls
    (q.1, p.2 ++ q.2)

/-- run_ipc_loop: fresh handler, ready status, then the line loop. -/
def run_ipc_loop (ls : List InputLine) : IPCHandler × List Msg :=
  let p := processLines ⟨none, none⟩ ls
  (p.1, Msg.status "IPC handler ready" :: p.2)

/-- Events on which the loop body increments the frame counter (a grab that
succeeded, whether or not the save then completed). -/
def isGrab : LoopEvent → Bool
  | .delivered _ _ _ => true
  | .deliveredSaveFail _ => true
  | _ => false

/-- Events on which the loop body persists a frame and notifies the callback. -/
def isDelivered : LoopEvent → Bool
  | .delivered _ _ _ => true
  | _ => false

/-- Events where the grab succeeded but the save raised. -/
def isSaveFail : LoopEvent → Bool
  | .deliveredSaveFail _ => true
  | _ => false

/-- Number of counter increments a trace causes. -/
def countGrabs (es : List LoopEvent) : ℕ := (es.filter isGrab).length

/-- Number of frames a trace persists. -/
def countDelivered (es : List LoopEvent) : ℕ := (es.filter isDelivered).length

/-- The FRAME_SAVED notifications among a list of messages. -/
def frameSaves (ms : List Msg) : List FrameInfo :=
  ms.filterMap fun m => match m with
    | Msg.frameSaved f => some f
    | _ => none

/-- The FrameInfo values the loop hands to the callback on a trace, starting
from counter value c. -/
def expectedSaves (cid dir : String) (cb : Bool) (c : ℕ) : List LoopEvent → List FrameInfo
  | [] => []
  | LoopEvent.delivered ts w h :: es =>
    (if cb then [⟨cid, c + 1, dir ++ "/" ++ pad6 (c + 1) ++ ".png", ts, w, h⟩] else [])
      ++ expectedSaves cid dir cb (c + 1) es
  | LoopEvent.deliveredSaveFail _ :: es => expectedSaves cid dir cb (c + 1) es
  | LoopEvent.failedResult :: es => expectedSaves cid dir cb c es
  | LoopEvent.timeout :: es => expectedSaves cid dir cb c es
  | LoopEvent.retrieveError _ :: es => expectedSaves cid dir cb c es

/-- The image files the loop writes on a trace, starting from counter c. -/
def expectedPaths (dir : String) (c : ℕ) : List LoopEvent → List String
  | [] => []
  | LoopEvent.delivered _ _ _ :: es =>
    (dir ++ "/" ++ pad6 (c + 1) ++ ".png") :: expectedPaths dir (c + 1) es
  | LoopEvent.deliveredSaveFail _ :: es => expectedPaths dir (c + 1) es
  | LoopEvent.failedResult :: es => expectedPaths dir c es
  | LoopEvent.timeout :: es => expectedPaths dir c es
  | LoopEvent.retrieveError _ :: es => expectedPaths dir c es

/-- Whether a _capture_loop iteration retrieves a grab result object on a
given RetrieveResult outcome: everything except a timeout (falsy result) and
a raising RetrieveResult call. -/
def eventRetrieved : LoopEvent → Bool
  | LoopEvent.timeout => false
  | LoopEvent.retrieveError _ => false
  | _ => true

/-- Whether a _capture_loop iteration calls Release on a given outcome: only
a delivered frame whose save and callback complete reaches line 374. -/
def eventReleased : LoopEvent → Bool
  | LoopEvent.delivered _ _ _ => true
  | _ => false

/-- The FRAME_SAVED notifications of one session: start_capture with the
dispatcher callback installed, then the acquisition loop over a trace. -/
def sessionSaves (m : CameraManager) (dir : String) (k : ℕ) (es : List LoopEvent) :
    List FrameInfo :=
  frameSaves (capture_loop (start_capture m dir true none k).state es).msgs

/-- A freshly initialised manager that has been connected (camera object
created and opened). -/
def mConn : CameraManager :=
  { mkCameraManager "cam1" none with camera := true, is_open := true }

/-- The connected manager after an accepted start_capture into directory
out with the dispatcher frame callback installed. -/
def mRun : CameraManager := (start_capture mConn "out" true none 5).state

/-- A dispatcher holding the connected manager. -/
def hC8 : IPCHandler := ⟨some mConn, some "cam1"⟩

/-- A dispatcher holding the capturing manager. -/
def hRun : IPCHandler := ⟨some mRun, some "cam1"⟩

/-- A start_capture command whose mkdir call raises an OSError. -/
def cMkdirFail : Command := Command.start_capture (some "out") (some "mkdir failed") 5

/-- A three-line session trace: two delivered frames around a timeout. -/
def esW : List LoopEvent :=
  [LoopEvent.delivered 0 640 480, LoopEvent.timeout, LoopEvent.delivered 1 320 240]

/-- The handler state after an init command for cam1 at 10.0.0.5. -/
def e2eH1 : IPCHandler :=
  (route ⟨none, none⟩ (Command.init (some "cam1") (some "10.0.0.5"))).state

/-- Then a successful connect (pypylon present, open succeeds, all six
configuration writes succeed). -/
def e2eH2 : IPCHandler := (route e2eH1 (Command.connect none true true 6)).state

/-- Then an accepted start_capture into session_out. -/
def e2eH3 : IPCHandler :=
  (route e2eH2 (Command.start_capture (some "session_out") none 5)).state

/-- The capturing manager of that end-to-end session. -/
def e2eM3 : CameraManager := (e2eH3.camera).getD (mkCameraManager "none" none)

/-- Its acquisition loop over three delivered frames. -/
def e2eLoop : LoopRun :=
  capture_loop e2eM3
    [LoopEvent.delivered 100 1920 1080, LoopEvent.delivered 101 1920 1080,
     LoopEvent.delivered 102 1920 1080]

/-- Characterisation of the acquisition loop: with the active flag set it
processes the whole trace, touching only frame_count, and its notifications
and file writes are the expected ones. -/
theorem capture_loop_char (es : List LoopEvent) (m : CameraManager)
    (ha : m.capture_active = true) :
    (capture_loop m es).state = { m with frame_count := m.frame_count + countGrabs es }
    ∧ frameSaves (capture_loop m es).msgs =
        expectedSaves m.camera_id (m.output_dir.getD "") m.frame_callback m.frame_count es
    ∧ (capture_loop m es).saved = expectedPaths (m.output_dir.getD "") m.frame_count es := by
  induction es generalizing m with
  | nil =>
    simp [capture_loop, countGrabs, expectedSaves, expectedPaths, frameSaves]
  | cons e es ih =>
    cases e with
    | delivered ts w h =>
      have h2 := ih { m with frame_count := m.frame_count + 1 } (by simpa using ha)
      simp [capture_loop, capture_loop_step, ha, countGrabs, List.filter, isGrab,
        expectedSaves, expectedPaths, frameSaves, List.filterMap_append] at h2 ⊢
      refine ⟨?_, ?_, ?_⟩
      · rw [h2.1]; congr 1; omega
      · cases hc : m.frame_callback <;>
          simp [hc, frameSaves] at h2 ⊢ <;> exact h2.2.1
      · exact h2.2.2
    | deliveredSaveFail err =>
      have h2 := ih { m with frame_count := m.frame_count + 1 } (by simpa using ha)
      simp [capture_loop, capture_loop_step, ha, countGrabs, List.filter, isGrab,
        expectedSaves, expectedPaths, frameSaves, List.filterMap_append] at h2 ⊢
      refine ⟨?_, ?_, ?_⟩
      · rw [h2.1]; congr 1; omega
      · exact h2.2.1
      · exact h2.2.2
    | failedResult =>
      have h2 := ih m ha
      simp [capture_loop, capture_loop_step, ha, countGrabs, List.filter, isGrab,
        expectedSaves, expectedPaths, frameSaves, List.filterMap_append] at h2 ⊢
      exact h2
    | timeout =>
      have h2 := ih m ha
      simp [capture_loop, capture_loop_step, ha, countGrabs, List.filter, isGrab,
        expectedSaves, expectedPaths, frameSaves, List.filterMap_append] at h2 ⊢
      exact h2
    | retrieveError err =>
      have h2 := ih m ha
      simp [capture_loop, capture_loop_step, ha, countGrabs, List.filter, isGrab,
        expectedSaves, expectedPaths, frameSaves, List.filterMap_append] at h2 ⊢
      exact h2

/-- On a trace without save failures the callback sees consecutive frame
numbers starting right after the initial counter value. -/
theorem expectedSaves_map_number (cid dir : String) (es : List LoopEvent) (c : ℕ)
    (hnf : ∀ e ∈ es, isSaveFail e = false) :
    (expectedSaves cid dir true c es).map FrameInfo.frame_number =
      List.range' (c + 1) (countDelivered es) := by
  induction es generalizing c with
  | nil => simp [expectedSaves, countDelivered]
  | cons e es ih =>
    have hes : ∀ e ∈ es, isSaveFail e = false := fun x hx => hnf x (List.mem_cons_of_mem _ hx)
    cases e with
    | delivered ts w h =>
      simp [expectedSaves, countDelivered, List.filter, isDelivered, ih _ hes,
        List.range'_succ]
    | deliveredSaveFail err =>
      exact absurd (hnf _ (List.mem_cons_self _ _)) (by simp [isSaveFail])
    | failedResult =>
      simpa [expectedSaves, countDelivered, List.filter, isDelivered] using ih c hes
    | timeout =>
      simpa [expectedSaves, countDelivered, List.filter, isDelivered] using ih c hes
    | retrieveError err =>
      simpa [expectedSaves, countDelivered, List.filter, isDelivered] using ih c hes

/-- Every FrameInfo the loop emits carries the session camera id, a file
path naming its own zero-padded frame number under the output directory,
and a frame number strictly above the counter value the trace started from. -/
theorem expectedSaves_mem (cid dir : String) (cb : Bool) (es : List LoopEvent) (c : ℕ) :
    ∀ f ∈ expectedSaves cid dir cb c es,
      f.camera_id = cid ∧
      f.file_path = dir ++ "/" ++ pad6 f.frame_number ++ ".png" ∧
      c < f.frame_number := by
  induction es generalizing c with
  | nil => simp [expectedSaves]
  | cons e es ih =>
    cases e with
    | delivered ts w h =>
      intro f hf
      cases cb with
      | false =>
        have h2 := ih (c + 1) f (by simpa [expectedSaves] using hf)
        exact ⟨h2.1, h2.2.1, by omega⟩
      | true =>
        rcases (by simpa [expectedSaves] using hf :
            f = (⟨cid, c + 1, dir ++ "/" ++ pad6 (c + 1) ++ ".png", ts, w, h⟩ : FrameInfo)
            ∨ f ∈ expectedSaves cid dir true (c + 1) es) with h1 | h1
        · subst h1; exact ⟨rfl, rfl, Nat.lt_succ_self c⟩
        · have h2 := ih (c + 1) f h1
          exact ⟨h2.1, h2.2.1, by omega⟩
    | deliveredSaveFail err =>
      intro f hf
      have h2 := ih (c + 1) f (by simpa [expectedSaves] using hf)
      exact ⟨h2.1, h2.2.1, by omega⟩
    | failedResult =>
      intro f hf
      exact ih c f (by simpa [expectedSaves] using hf)
    | timeout =>
      intro f hf
      exact ih c f (by simpa [expectedSaves] using hf)
    | retrieveError err =>
      intro f hf
      exact ih c f (by simpa [expectedSaves] using hf)

/-- The accepted path of start_capture: the returned flag is true and the
fields the session depends on have the stated values. -/
theorem start_capture_accepted (m : CameraManager) (dir : String) (cb : Bool) (k : ℕ)
    (h1 : m.is_open = true) (h2 : m.camera = true) (h3 : m.is_capturing = false) :
    (start_capture m dir cb none k).ok = true
    ∧ (start_capture m dir cb none k).exn = none
    ∧ (start_capture m dir cb none k).state.frame_count = 0
    ∧ (start_capture m dir cb none k).state.capture_active = true
    ∧ (start_capture m dir cb none k).state.is_capturing = true
    ∧ (start_capture m dir cb none k).state.output_dir = some dir
    ∧ (start_capture m dir cb none k).state.frame_callback = cb
    ∧ (start_capture m dir cb none k).state.camera_id = m.camera_id := by
  by_cases h5 : 5 ≤ k <;>
    simp [start_capture, configure_hardware_trigger, h1, h2, h3, h5]

/-- The padded frame-number text is the decimal digits left-padded with
zeros to a minimum width of six characters. -/
theorem pad6_length (n : ℕ) : (pad6 n).length = max 6 (Nat.repr n).length := by
  simp [pad6, String.length_append]
  omega

/-- A trace persists at most as many frames as it grabs. -/
theorem countDelivered_le_countGrabs (es : List LoopEvent) :
    countDelivered es ≤ countGrabs es := by
  induction es with
  | nil => simp [countDelivered, countGrabs]
  | cons e es ih =>
    cases e <;>
      simp [countDelivered, countGrabs, List.filter, isDelivered, isGrab] at ih ⊢ <;>
      omega

/-- The loop writes exactly one file per delivered frame. -/
theorem expectedPaths_length (dir : String) (es : List LoopEvent) (c : ℕ) :
    (expectedPaths dir c es).length = countDelivered es := by
  induction es generalizing c with
  | nil => simp [expectedPaths, countDelivered]
  | cons e es ih =>
    cases e <;>
      simp [expectedPaths, countDelivered, List.filter, isDelivered, ih]

/-- C4: stop_capture while not capturing returns the defined failure result
(success false, frame_count 0, error Not capturing) and leaves the whole
manager state untouched. -/
theorem c4_stop_idle_noop (m : CameraManager) (h : m.is_capturing = false) :
    stop_capture m =
      ⟨m, ⟨m.camera_id, false, 0, "", "", "", 0, some "Not capturing"⟩, []⟩ := by
  simp [stop_capture, h]

/-- C4 witness: the idle connected manager. -/
theorem c4_stop_idle_noop_witness :
    mConn.is_capturing = false
    ∧ stop_capture mConn =
        ⟨mConn, ⟨"cam1", false, 0, "", "", "", 0, some "Not capturing"⟩, []⟩ :=
  ⟨rfl, c4_stop_idle_noop mConn rfl⟩

/-- C5: start_capture while not connected or while already capturing returns
false and leaves the manager state, including the output directory and the
frame counter of any running session, exactly as it was. -/
theorem c5_start_rejected (m : CameraManager) (dir : String) (cb : Bool)
    (mkE : Option String) (k : ℕ) (h : m.is_open = false ∨ m.is_capturing = true) :
    (start_capture m dir cb mkE k).ok = false
    ∧ (start_capture m dir cb mkE k).state = m
    ∧ (start_capture m dir cb mkE k).exn = none := by
  rcases h with h | h
  · simp [start_capture, h]
  · by_cases hoc : m.is_open ∧ m.camera
    · simp [start_capture, h, hoc]
    · simp [start_capture, h, hoc]

/-- C5 witness: starting again while the session of mRun is running is
rejected with everything unchanged. -/
theorem c5_start_rejected_witness :
    mRun.is_capturing = true
    ∧ (start_capture mRun "other" true none 5).ok = false
    ∧ (start_capture mRun "other" true none 5).state = mRun :=
  ⟨rfl, (c5_start_rejected mRun "other" true none 5 (Or.inr rfl)).1,
   (c5_start_rejected mRun "other" true none 5 (Or.inr rfl)).2.1⟩

/-- C6 counterexample: update_settings during a running capture session is
not a no-op on the stored settings: updating gain to 5 while mRun is
capturing changes the stored gain field from 0 to 5. -/
theorem c6_counterexample :
    mRun.is_capturing = true
    ∧ mRun.settings.gain = 0
    ∧ (update_settings mRun [SettingsUpdate.gain 5] 6).1.settings.gain = 5 := by
  refine ⟨rfl, by decide, by decide⟩

/-- C6 (amended): update_settings while capturing applies every recognised
keyword argument to the stored CameraSettings but defers the hardware side:
_configure_camera is not run, so the registers and every other manager field
are unchanged and nothing is printed. -/
theorem c6_update_while_capturing (m : CameraManager) (ks : List SettingsUpdate)
    (k : ℕ) (h : m.is_capturing = true) :
    update_settings m ks k =
      ({ m with settings := ks.foldl applyUpdate m.settings }, []) := by
  simp [update_settings, h]

/-- C6 witness: the gain update on the capturing manager. -/
theorem c6_update_while_capturing_witness :
    mRun.is_capturing = true
    ∧ update_settings mRun [SettingsUpdate.gain 5] 6 =
        ({ mRun with settings :=
            [SettingsUpdate.gain 5].foldl applyUpdate mRun.settings }, []) :=
  ⟨rfl, c6_update_while_capturing mRun [SettingsUpdate.gain 5] 6 rfl⟩

/-- C7 counterexample: in the acquisition loop a retrieved grab result whose
GrabSucceeded is false is never released: the body of the if is skipped and
no other statement touches the result before the next iteration. -/
theorem c7_counterexample :
    (capture_loop_step mRun LoopEvent.failedResult).retrieved = true
    ∧ (capture_loop_step mRun LoopEvent.failedResult).released = false := by
  refine ⟨by decide, by decide⟩

/-- C7 (amended): grab_frame releases the retrieved buffer on each of its
exit paths (success, grab failure; on a raising RetrieveResult nothing was
retrieved); the acquisition loop, however, releases the buffer only on a
delivered frame whose save and callback complete - a retrieved result whose
grab did not succeed, or whose save raises, is not released. -/
theorem c7_buffer_release (m : CameraManager) (o : GrabOneOutcome) (e : LoopEvent)
    (h : (grab_frame m o).retrieved = true) :
    (grab_frame m o).released = true
    ∧ (capture_loop_step m e).retrieved = eventRetrieved e
    ∧ (capture_loop_step m e).released = eventReleased e := by
  refine ⟨?_, ?_, ?_⟩
  · by_cases hoc : m.is_open ∧ m.camera
    · cases o <;> simp_all [grab_frame]
    · simp [grab_frame, hoc] at h
  · cases e <;> simp [capture_loop_step, eventRetrieved]
  · cases e <;> simp [capture_loop_step, eventReleased]

/-- C7 witness: a successful single-frame grab on the connected manager
releases its buffer; the loop on a failed result retrieves without
releasing. -/
theorem c7_buffer_release_witness :
    (grab_frame mConn GrabOneOutcome.succeeded).retrieved = true
    ∧ (grab_frame mConn GrabOneOutcome.succeeded).released = true
    ∧ (capture_loop_step mConn LoopEvent.failedResult).released =
        eventReleased LoopEvent.failedResult :=
  ⟨by decide, (c7_buffer_release mConn GrabOneOutcome.succeeded LoopEvent.failedResult
      (by decide)).1,
   (c7_buffer_release mConn GrabOneOutcome.succeeded LoopEvent.failedResult
      (by decide)).2.2⟩

/-- C9: the friendly display name computed at CameraInfo construction is
user_name - model (address) when the user-defined name is non-empty and
model (address) otherwise, with the two concrete examples of the claim. -/
theorem c9_friendly_name (ip model serial mac user : String) (mock : Bool) :
    (mkCameraInfo ip model serial mac user mock).friendly_name =
      (if user = "" then model ++ " (" ++ ip ++ ")"
       else user ++ " - " ++ model ++ " (" ++ ip ++ ")")
    ∧ (mkCameraInfo "10.0.0.5" "Model-X" "SN1" "" "" false).friendly_name =
        "Model-X (10.0.0.5)"
    ∧ (mkCameraInfo "10.0.0.5" "Model-X" "SN1" "" "Left" false).friendly_name =
        "Left - Model-X (10.0.0.5)" := by
  refine ⟨?_, by decide, by decide⟩
  by_cases hu : user = "" <;> simp [mkCameraInfo, cameraInfoPostInit, hu]

/-- C1 counterexample: in a session whose second grabbed frame fails to
save (its persistence raises after the counter was already incremented at
line 354), the emitted FRAME_SAVED numbers are 1 then 3: the second
notification does not equal the count of notifications emitted so far, so
the emitted sequence has a gap. -/
theorem c1_counterexample :
    (frameSaves (capture_loop mRun
        [LoopEvent.delivered 0 640 480, LoopEvent.deliveredSaveFail "disk full",
         LoopEvent.delivered 0 640 480]).msgs).map FrameInfo.frame_number = [1, 3]
    ∧ [1, 3] ≠ List.range' 1 2 := by
  refine ⟨by decide, by decide⟩

/-- C1 (amended): every persisted frame is saved under the output directory
as its own zero-padded (minimum six digits) frame number dot png, 1-based,
and in any session in which no save fails the FRAME_SAVED numbers are
exactly 1,2,3,... with no gaps and no duplicates; a frame whose save raises
still consumes a number, leaving a gap. -/
theorem c1_frame_numbering (m : CameraManager) (dir : String) (es : List LoopEvent)
    (k : ℕ) (h1 : m.is_open = true) (h2 : m.camera = true) (h3 : m.is_capturing = false)
    (hnf : ∀ e ∈ es, isSaveFail e = false) :
    (sessionSaves m dir k es).map FrameInfo.frame_number =
      List.range' 1 (countDelivered es)
    ∧ (∀ f ∈ sessionSaves m dir k es,
        f.file_path = dir ++ "/" ++ pad6 f.frame_number ++ ".png" ∧ 1 ≤ f.frame_number)
    ∧ pad6 1 ++ ".png" = "000001.png"
    ∧ (∀ n : ℕ, (pad6 n).length = max 6 (Nat.repr n).length) := by
  obtain ⟨hok, hexn, hfc, hca, hic, hod, hcb, hcid⟩ :=
    start_capture_accepted m dir true k h1 h2 h3
  obtain ⟨hst, hmsgs, hsaved⟩ := capture_loop_char es _ hca
  have hsv : sessionSaves m dir k es = expectedSaves m.camera_id dir true 0 es := by
    simp only [sessionSaves]
    rw [hmsgs, hfc, hcb, hod, hcid]
    simp [Option.getD]
  refine ⟨?_, ?_, by decide, pad6_length⟩
  · rw [hsv]
    simpa using expectedSaves_map_number m.camera_id dir es 0 hnf
  · intro f hf
    rw [hsv] at hf
    have h := expectedSaves_mem m.camera_id dir true es 0 f hf
    exact ⟨h.2.1, h.2.2⟩

/-- C1 witness: a clean two-frame session on the connected manager. -/
theorem c1_frame_numbering_witness :
    mConn.is_open = true
    ∧ (∀ e ∈ esW, isSaveFail e = false)
    ∧ (sessionSaves mConn "out" 5 esW).map FrameInfo.frame_number =
        List.range' 1 (countDelivered esW) :=
  ⟨rfl, by decide, (c1_frame_numbering mConn "out" esW 5 rfl rfl rfl (by decide)).1⟩

/-- C2 counterexample: a grabbed frame whose save raises still increments
the counter by 1 while persisting no file, so the counter does not advance
by exactly 1 per successfully persisted frame. -/
theorem c2_counterexample :
    mRun.frame_count = 0
    ∧ (capture_loop_step mRun (LoopEvent.deliveredSaveFail "disk full")).state.frame_count = 1
    ∧ (capture_loop_step mRun (LoopEvent.deliveredSaveFail "disk full")).saved = [] := by
  refine ⟨by decide, by decide, by decide⟩

/-- C2 (amended): an accepted start_capture resets the counter to 0 before
the loop runs; within a session the counter never decreases and advances by
exactly 1 per successfully grabbed frame (the number of persisted files is
at most that, and equals the number of delivered frames whose save
completed). -/
theorem c2_counter_reset_and_monotone (m : CameraManager) (dir : String)
    (es : List LoopEvent) (k : ℕ)
    (h1 : m.is_open = true) (h2 : m.camera = true) (h3 : m.is_capturing = false) :
    (start_capture m dir true none k).ok = true
    ∧ (start_capture m dir true none k).state.frame_count = 0
    ∧ (capture_loop (start_capture m dir true none k).state es).state.frame_count =
        countGrabs es
    ∧ ((capture_loop (start_capture m dir true none k).state es).saved).length =
        countDelivered es
    ∧ countDelivered es ≤ countGrabs es
    ∧ (∀ (n : CameraManager) (e : LoopEvent),
        (capture_loop_step n e).state.frame_count =
          n.frame_count + (if isGrab e = true then 1 else 0)) := by
  obtain ⟨hok, hexn, hfc, hca, hic, hod, hcb, hcid⟩ :=
    start_capture_accepted m dir true k h1 h2 h3
  obtain ⟨hst, hmsgs, hsaved⟩ := capture_loop_char es _ hca
  refine ⟨hok, hfc, ?_, ?_, countDelivered_le_countGrabs es, ?_⟩
  · rw [hst]
    simp [hfc]
  · rw [hsaved]
    exact expectedPaths_length _ es _
  · intro n e
    cases e <;> simp [capture_loop_step, isGrab]

/-- C2 witness: the two-frame session. -/
theorem c2_counter_reset_and_monotone_witness :
    mConn.is_open = true
    ∧ (start_capture mConn "out" true none 5).state.frame_count = 0
    ∧ (capture_loop (start_capture mConn "out" true none 5).state esW).state.frame_count =
        countGrabs esW :=
  ⟨rfl, (c2_counter_reset_and_monotone mConn "out" esW 5 rfl rfl rfl).2.1,
   (c2_counter_reset_and_monotone mConn "out" esW 5 rfl rfl rfl).2.2.1⟩

/-- C3: stop_capture during a capturing session returns success with the
final frame counter and the session output directory, no error, and the
session is no longer capturing. -/
theorem c3_stop_returns_final_count (m : CameraManager) (d : String)
    (h : m.is_capturing = true) (hd : m.output_dir = some d) :
    (stop_capture m).result.success = true
    ∧ (stop_capture m).result.frame_count = m.frame_count
    ∧ (stop_capture m).result.output_dir = d
    ∧ (stop_capture m).result.error = none
    ∧ (stop_capture m).state.is_capturing = false := by
  by_cases hg : m.camera ∧ m.grabbing <;> simp [stop_capture, h, hd, hg]

/-- C3 witness, the end-to-end scenario: init, successful connect, accepted
start_capture, three delivered frames, stop_capture; FRAME_SAVED numbers are
1,2,3 and the result is success with frame_count 3. -/
theorem c3_stop_returns_final_count_witness :
    e2eLoop.state.is_capturing = true
    ∧ e2eLoop.state.frame_count = 3
    ∧ (frameSaves e2eLoop.msgs).map FrameInfo.frame_number = [1, 2, 3]
    ∧ (stop_capture e2eLoop.state).result.success = true
    ∧ (stop_capture e2eLoop.state).result.frame_count = 3
    ∧ (stop_capture e2eLoop.state).result.output_dir = "session_out" := by
  have h := c3_stop_returns_final_count e2eLoop.state "session_out" (by decide) (by decide)
  exact ⟨by decide, by decide, by decide, h.1, by rw [h.2.1]; decide, h.2.2.1⟩

/-- C8: faults never terminate command processing: a line that json.loads
rejects yields exactly one ERROR line and leaves the dispatcher state and
all subsequent lines unaffected; an unrecognized command yields one
unknown-command ERROR and processing continues; an exception escaping a
handler is caught at the dispatch boundary, converted into one command-error
line after the messages the handler already printed, and the dispatcher
continues from the state the handler left. -/
theorem c8_fault_isolation (h : IPCHandler) (ls : List InputLine)
    (e1 e2 s : String) (c : Command) :
    processLines h (InputLine.invalid e1 :: ls) =
      ((processLines h ls).1, Msg.error ("Invalid JSON: " ++ e1) :: (processLines h ls).2)
    ∧ processLines h (InputLine.cmd (Command.unknown s) :: ls) =
      ((processLines h ls).1, Msg.error ("Unknown command: " ++ s) :: (processLines h ls).2)
    ∧ ((route h c).exn = some e2 →
        processLines h (InputLine.cmd c :: ls) =
          ((processLines (route h c).state ls).1,
           ((route h c).msgs ++ [Msg.error ("Command error: " ++ e2)]) ++
             (processLines (route h c).state ls).2)) := by
  refine ⟨?_, ?_, ?_⟩
  · simp [processLines, processLine]
  · simp [processLines, processLine, handle_command, route]
  · intro hx
    simp [processLines, processLine, handle_command, hx]

/-- C8 witness: a start_capture command whose mkdir raises on the connected
dispatcher satisfies the exception hypothesis, and the three parts evaluate
to their stated effects on the one-line traces. -/
theorem c8_fault_isolation_witness :
    (route hC8 cMkdirFail).exn = some "mkdir failed"
    ∧ processLines hC8 [InputLine.cmd cMkdirFail] =
        ((processLines (route hC8 cMkdirFail).state []).1,
         ((route hC8 cMkdirFail).msgs ++ [Msg.error ("Command error: " ++ "mkdir failed")]) ++
           (processLines (route hC8 cMkdirFail).state []).2)
    ∧ processLines hC8 [InputLine.invalid "oops"] =
        ((processLines hC8 []).1, Msg.error ("Invalid JSON: " ++ "oops") :: (processLines hC8 []).2) :=
  ⟨by decide,
   (c8_fault_isolation hC8 [] "oops" "mkdir failed" "nope" cMkdirFail).2.2 (by decide),
   (c8_fault_isolation hC8 [] "oops" "mkdir failed" "nope" cMkdirFail).1⟩

/-- C10: an init command always succeeds and replaces the stored manager
with a fresh one (counter 0, not connected, not capturing, and a status
snapshot reporting capturing false), even while the previous manager is
capturing; that previous manager is neither stopped nor joined, and since
its active flag is still set its acquisition loop still processes a
delivered frame and emits the FRAME_SAVED notification for it. -/
theorem c10_init_replaces (h : IPCHandler) (old : CameraManager)
    (cid cip : Option String) (ts : ℚ) (w ht : ℕ)
    (hc : h.camera = some old) (hcap : old.is_capturing = true)
    (hact : old.capture_active = true) (hcb : old.frame_callback = true) :
    (route h (Command.init cid cip)).exn = none
    ∧ (route h (Command.init cid cip)).msgs =
        [Msg.data (DataPayload.initResp (cid.getD "cam1"))]
    ∧ (∃ fresh : CameraManager,
        (route h (Command.init cid cip)).state.camera = some fresh
        ∧ fresh.frame_count = 0
        ∧ fresh.is_open = false
        ∧ fresh.is_capturing = false
        ∧ (get_status fresh).capturing = false)
    ∧ (capture_loop old [LoopEvent.delivered ts w ht]).msgs =
        [Msg.frameSaved ⟨old.camera_id, old.frame_count + 1,
          old.output_dir.getD "" ++ "/" ++ pad6 (old.frame_count + 1) ++ ".png",
          ts, w, ht⟩]
    ∧ (capture_loop old [LoopEvent.delivered ts w ht]).state.frame_count =
        old.frame_count + 1 := by
  refine ⟨rfl, rfl, ⟨mkCameraManager (cid.getD "cam1")
      (some { defaultSettings with camera_ip := cip, camera_id := some (cid.getD "cam1") }),
      rfl, rfl, rfl, rfl, rfl⟩, ?_, ?_⟩
  · simp [capture_loop, capture_loop_step, hact, hcb]
  · simp [capture_loop, capture_loop_step, hact]

/-- C10 witness: init while the capturing manager mRun is installed. -/
theorem c10_init_replaces_witness :
    hRun.camera = some mRun
    ∧ mRun.is_capturing = true
    ∧ (route hRun (Command.init (some "cam2") none)).msgs =
        [Msg.data (DataPayload.initResp "cam2")]
    ∧ (capture_loop mRun [LoopEvent.delivered 7 640 480]).msgs =
        [Msg.frameSaved ⟨mRun.camera_id, mRun.frame_count + 1,
          mRun.output_dir.getD "" ++ "/" ++ pad6 (mRun.frame_count + 1) ++ ".png",
          7, 640, 480⟩] :=
  ⟨rfl, rfl,
   (c10_init_replaces hRun mRun (some "cam2") none 7 640 480 rfl rfl rfl rfl).2.1,
   (c10_init_replaces hRun mRun (some "cam2") none 7 640 480 rfl rfl rfl rfl).2.2.2.1⟩
